import Mathlib

/-! # AI-Travel-Planner — budget estimator verification

Shallow embedding of the budget-estimation logic of the repository:
the `generateBudgetAnalysis` pipeline of `src/components/BudgetAnalystAgent.tsx`
(destination multiplier, six-category breakdown, budget status, variance,
recommendations, cost-saving tips, risk factors) and the cost section of
`analyzeTripBudget` in `src/components/TravelBudgetAnalyst.tsx` (the
itinerary / flight-selection overrides).

Modelling conventions:
* JavaScript arithmetic on the values these functions actually handle is
  exact rational (or real, where `Math.sqrt` appears) arithmetic; it is
  embedded as `ℚ`/`ℝ` with `Math.round x` as `⌊x + 1/2⌋` (JS rounds half
  toward positive infinity).
* The one place where IEEE special values can arise — dividing by a zero
  `originalBudget` — is modelled by `JsNum`, rationals extended with
  `Infinity`, `-Infinity` and `NaN`, and an explicit `jsDiv`.
* `parseInt(x) || default` (lines 162–163 of `BudgetAnalystAgent.tsx`) is
  embedded by an explicit model of JS `parseInt` plus the truthiness test
  (`NaN` and `±0` are falsy).
* Display-only strings (the `calculation` and `details` fields of the
  breakdown, names and times inside itinerary entries) are not modelled;
  every numeric field and every string the control flow inspects is.
* `totalDays` and `travelers` are taken as natural numbers: the spec's §3
  requires both to be at least 1, and every quantitative claim guards on
  that; the date parsing producing `totalDays` is outside the embedding.
-/

namespace TravelPlanner

/-- JS `Math.round` on exact reals: round half toward positive infinity. -/
noncomputable def jsRound (x : ℝ) : ℤ := ⌊x + 1 / 2⌋

/-- JS `Math.round` at the places where the source rounds a rational-valued
quantity (no `Math.sqrt` involved), kept on `ℚ` so it computes. -/
def jsRoundQ (q : ℚ) : ℤ := ⌊q + 1 / 2⌋

/-! ## JS division with IEEE special values

Only used for `variancePercentage = (variance / originalBudget) * 100`
(line 248), the one spot the spec flags as unguarded division. -/

/-- A JS number that is either an exact rational or one of the IEEE
special values that `x / 0` produces. -/
inductive JsNum where
  | finite (q : ℚ)
  | posInf
  | negInf
  | nan
deriving DecidableEq

/-- JS division `a / b` on exact inputs: ordinary division for a nonzero
divisor; `Infinity`, `-Infinity` or `NaN` (by the sign of `a`) for `b = 0`. -/
def jsDiv (a b : ℚ) : JsNum :=
  if b ≠ 0 then .finite (a / b)
  else if 0 < a then .posInf
  else if a < 0 then .negInf
  else .nan

/-- Multiplication of a `JsNum` by an exact rational constant (used with the
constant `100`). -/
def jsMulConst (x : JsNum) (c : ℚ) : JsNum :=
  match x with
  | .finite q => .finite (q * c)
  | .posInf => if 0 < c then .posInf else if c < 0 then .negInf else .nan
  | .negInf => if 0 < c then .negInf else if c < 0 then .posInf else .nan
  | .nan => .nan

/-- Whether a `JsNum` is an ordinary (finite) number. -/
def JsNum.isFinite : JsNum → Bool
  | .finite _ => true
  | _ => false

/-! ## JS `parseInt` and the `|| default` coercions (lines 162–163) -/

/-- The numeric value of a decimal digit character, `none` otherwise. -/
def decDigit? (c : Char) : Option ℕ :=
  if c.isDigit then some (c.toNat - 48) else none

/-- The numeric value of a hexadecimal digit character, `none` otherwise. -/
def hexDigit? (c : Char) : Option ℕ :=
  if c.isDigit then some (c.toNat - 48)
  else if 'a' ≤ c ∧ c ≤ 'f' then some (c.toNat - 87)
  else if 'A' ≤ c ∧ c ≤ 'F' then some (c.toNat - 55)
  else none

/-- Value of the longest prefix of digits (per `digit?`) of `cs` in the given
base; `none` when there is no leading digit (JS `parseInt` returns `NaN`). -/
def digitsValue (base : ℕ) (digit? : Char → Option ℕ) (cs : List Char) : Option ℕ :=
  let ds := cs.takeWhile fun c => (digit? c).isSome
  if ds.isEmpty then none
  else some (ds.foldl (fun acc c => acc * base + (digit? c).getD 0) 0)

/-- JS `parseInt` after whitespace and sign: a `0x`/`0X` prefix selects
hexadecimal, otherwise decimal. -/
def jsParseIntAbs (cs : List Char) : Option ℕ :=
  match cs with
  | '0' :: 'x' :: rest => digitsValue 16 hexDigit? rest
  | '0' :: 'X' :: rest => digitsValue 16 hexDigit? rest
  | _ => digitsValue 10 decDigit? cs

/-- JS `parseInt(s)` (radix argument omitted, as in the source): skip leading
whitespace, take an optional sign, then the longest digit prefix; `none`
stands for `NaN`. -/
def jsParseInt (s : String) : Option ℤ :=
  match s.toList.dropWhile Char.isWhitespace with
  | '-' :: rest => (jsParseIntAbs rest).map fun n => -(n : ℤ)
  | '+' :: rest => (jsParseIntAbs rest).map fun n => (n : ℤ)
  | cs => (jsParseIntAbs cs).map fun n => (n : ℤ)

/-- Line 162: `const travelers = parseInt(data.travellers) || 1` — a parse
that yields `NaN` or `±0` (both falsy) becomes the default `1`. -/
def travelersOf (s : String) : ℤ :=
  match jsParseInt s with
  | some n => if n = 0 then 1 else n
  | none => 1

/-- Line 163: `const originalBudget = parseInt(data.budget) || 2000` — a parse
that yields `NaN` or `±0` (both falsy) becomes the default `2000`. -/
def originalBudgetOf (s : String) : ℤ :=
  match jsParseInt s with
  | some n => if n = 0 then 2000 else n
  | none => 2000

/-! ## Destination cost multiplier (lines 166–178) -/

/-- Line 167. -/
def lowCost : List String :=
  ["thailand", "vietnam", "india", "nepal", "cambodia", "laos", "guatemala", "bolivia"]

/-- Line 168. -/
def mediumCost : List String :=
  ["spain", "portugal", "greece", "czech republic", "poland", "hungary", "mexico", "turkey"]

/-- Line 169. -/
def highCost : List String :=
  ["japan", "switzerland", "norway", "denmark", "singapore", "australia", "new zealand", "uk"]

/-- Line 170. -/
def veryHighCost : List String :=
  ["monaco", "luxembourg", "iceland", "liechtenstein"]

/-- Whether the character list `sub` occurs contiguously inside `l`:
JS `String.prototype.includes`. -/
def includesList : List Char → List Char → Bool
  | [], sub => sub.isEmpty
  | c :: rest, sub => sub.isPrefixOf (c :: rest) || includesList rest sub

/-- JS `toLowerCase` on the ASCII strings involved here: lower-case each
character. -/
def lowerChars (s : String) : List Char := s.toList.map Char.toLower

/-- `tier.some(country => dest.includes(country))` with
`dest = destination.toLowerCase()` (lines 172–176). -/
def matchesTier (destination : String) (tier : List String) : Bool :=
  tier.any fun country => includesList (lowerChars destination) country.toList

/-- Lines 166–178: the destination cost multiplier, first matching tier wins,
default `1.0`. -/
def getDestinationMultiplier (destination : String) : ℚ :=
  if matchesTier destination veryHighCost then 1.5
  else if matchesTier destination highCost then 1.3
  else if matchesTier destination mediumCost then 0.9
  else if matchesTier destination lowCost then 0.6
  else 1.0

/-! ## The six-category breakdown (lines 183–244) -/

/-- The numeric `amount` fields of the source's `BudgetBreakdown`
(the `calculation` and `details` fields are display-only strings). -/
structure BudgetBreakdown where
  flights : ℤ
  accommodation : ℤ
  food : ℤ
  activities : ℤ
  transportation : ℤ
  miscellaneous : ℤ
deriving DecidableEq

/-- The `breakdown` record literal of `generateBudgetAnalysis`
(lines 183–244), as a function of `totalDays`, `travelers` and
`destMultiplier`. -/
noncomputable def breakdownOf (totalDays travelers : ℕ) (destMultiplier : ℚ) :
    BudgetBreakdown where
  flights :=
    jsRound ((600 * (travelers : ℝ) * (if totalDays > 7 then 1.2 else 1.0)) * (destMultiplier : ℝ))
  accommodation :=
    jsRound ((85 * (totalDays : ℝ) * Real.sqrt (travelers : ℝ)) * (destMultiplier : ℝ))
  food :=
    jsRound ((45 * (totalDays : ℝ) * (travelers : ℝ)) * (destMultiplier : ℝ))
  activities :=
    jsRound ((35 * (totalDays : ℝ) * (travelers : ℝ)) * (destMultiplier : ℝ))
  transportation :=
    jsRound ((25 * (totalDays : ℝ) * Real.sqrt (travelers : ℝ)) * (destMultiplier : ℝ))
  miscellaneous :=
    jsRound ((20 * (totalDays : ℝ) * (travelers : ℝ)) * (destMultiplier : ℝ))

/-- Line 246: `Object.values(breakdown).reduce((sum, c) => sum + c.amount, 0)`
(JS object iteration follows insertion order, so the six categories are summed
in declaration order). -/
def BudgetBreakdown.total (b : BudgetBreakdown) : ℤ :=
  b.flights + b.accommodation + b.food + b.activities + b.transportation + b.miscellaneous

/-- The `budgetStatus` union type of the source. -/
inductive BudgetStatus where
  | under
  | over
  | onTrack
deriving DecidableEq

/-- Lines 250–252: `'on-track'` unless the variance leaves the ±5% band. -/
def budgetStatusOf (variance originalBudget : ℤ) : BudgetStatus :=
  if (variance : ℚ) < -(originalBudget : ℚ) * 0.05 then .under
  else if (variance : ℚ) > (originalBudget : ℚ) * 0.05 then .over
  else .onTrack

/-! ## Recommendations, cost-saving tips, risk factors (lines 269–346) -/

/-- The status-specific recommendations (lines 272–283). -/
def statusRecommendations (status : BudgetStatus) : List String :=
  match status with
  | .over =>
      ["Consider booking flights earlier or being flexible with travel dates to reduce costs",
       "Look into alternative accommodation options like hostels or vacation rentals",
       "Plan some free activities like hiking, beaches, or free museum days"]
  | .under =>
      ["You have room in your budget for some premium experiences or upgrades",
       "Consider extending your trip or adding day trips to nearby destinations",
       "Allocate extra budget for unique local experiences and cultural activities"]
  | .onTrack =>
      ["Your budget looks well-balanced for this itinerary",
       "Keep a small emergency fund for unexpected opportunities"]

/-- Lines 269–289: status-specific tips, then the two universal trailing tips.
The source's `variance` and `data` parameters do not influence the output and
are omitted. -/
def generateRecommendations (status : BudgetStatus) : List String :=
  statusRecommendations status ++
    ["Book accommodation and major activities in advance for better rates",
     "Consider travel insurance to protect your investment"]

/-- One entry of `costSavingTips`. -/
structure SavingTip where
  category : String
  tip : String
  potentialSavings : ℤ
deriving DecidableEq

/-- Lines 291–312: the four cost-saving tips with their fixed discount rates.
The source's `data` parameter is unused and omitted. -/
def generateCostSavingTips (breakdown : BudgetBreakdown) : List SavingTip :=
  [{ category := "Flights",
     tip := "Book 2-3 months in advance and consider nearby airports",
     potentialSavings := jsRoundQ ((breakdown.flights : ℚ) * 0.15) },
   { category := "Accommodation",
     tip := "Stay in local guesthouses or use vacation rental platforms",
     potentialSavings := jsRoundQ ((breakdown.accommodation : ℚ) * 0.25) },
   { category := "Food",
     tip := "Eat at local markets and cook some meals if possible",
     potentialSavings := jsRoundQ ((breakdown.food : ℚ) * 0.30) },
   { category := "Transportation",
     tip := "Use public transport and walk when possible",
     potentialSavings := jsRoundQ ((breakdown.transportation : ℚ) * 0.20) }]

/-- The `impact` union type of a risk factor. -/
inductive Impact where
  | low
  | medium
  | high
deriving DecidableEq

/-- One entry of `riskFactors`. -/
structure RiskFactor where
  factor : String
  impact : Impact
  description : String
deriving DecidableEq

/-- The conditional high-cost-destination entry (lines 317–323). -/
def highCostRisk : RiskFactor where
  factor := "High-cost destination"
  impact := .high
  description := "Prices may be 20-50% higher than estimated due to expensive local costs"

/-- The conditional extended-duration entry (lines 325–331). -/
def extendedTripRisk : RiskFactor where
  factor := "Extended trip duration"
  impact := .medium
  description := "Longer trips tend to have higher daily expenses due to fatigue and convenience choices"

/-- The first unconditional trailing entry (lines 333–337). -/
def currencyRisk : RiskFactor where
  factor := "Currency fluctuation"
  impact := .medium
  description := "Exchange rates may impact your actual spending power"

/-- The second unconditional trailing entry (lines 339–343). -/
def seasonalRisk : RiskFactor where
  factor := "Seasonal pricing"
  impact := .low
  description := "Peak tourist season may increase accommodation and activity costs"

/-- Lines 314–346: the risk-factor list — conditional entries first (multiplier
above 1.2, then more than 14 days), then the two unconditional entries. The
source's `data` parameter is unused and omitted. -/
def generateRiskFactors (days : ℕ) (multiplier : ℚ) : List RiskFactor :=
  (if multiplier > 1.2 then [highCostRisk] else []) ++
    (if days > 14 then [extendedTripRisk] else []) ++
    [currencyRisk, seasonalRisk]

/-! ## The analysis record (lines 160–267) -/

/-- The numeric and list content of the source's `BudgetAnalysis`. -/
structure BudgetAnalysis where
  totalEstimated : ℤ
  originalBudget : ℤ
  budgetStatus : BudgetStatus
  variance : ℤ
  variancePercentage : JsNum
  breakdown : BudgetBreakdown
  recommendations : List String
  costSavingTips : List SavingTip
  riskFactors : List RiskFactor

/-- Lines 160–267: `generateBudgetAnalysis`. `totalDays` stands for the
`Math.ceil` date difference of line 161 (date-string parsing is outside the
embedding); `travelers` and `originalBudget` are the line 162–163 parses
(`travelersOf` / `originalBudgetOf`). The `itineraryData` parameter of the
source is never read by the function body and is omitted. -/
noncomputable def generateBudgetAnalysis (destination : String)
    (totalDays travelers : ℕ) (originalBudget : ℤ) : BudgetAnalysis :=
  let destMultiplier := getDestinationMultiplier destination
  let breakdown := breakdownOf totalDays travelers destMultiplier
  let totalEstimated := breakdown.total
  let variance := totalEstimated - originalBudget
  let variancePercentage := jsMulConst (jsDiv (variance : ℚ) (originalBudget : ℚ)) 100
  let budgetStatus := budgetStatusOf variance originalBudget
  { totalEstimated := totalEstimated
    originalBudget := originalBudget
    budgetStatus := budgetStatus
    variance := variance
    variancePercentage := variancePercentage
    breakdown := breakdown
    recommendations := generateRecommendations budgetStatus
    costSavingTips := generateCostSavingTips breakdown
    riskFactors := generateRiskFactors totalDays destMultiplier }

/-! ## The spec's per-category formulas (spec §4.1 table)

Modelled from the spec: the canonical formula table with
`D = totalDays`, `T = travelers`, `M = destinationMultiplier`,
written exactly as the table states them for comparison with the code. -/

/-- Spec table: `round(600 × T × (1.2 if D>7 else 1.0) × M)`. -/
noncomputable def specFlights (D T : ℕ) (M : ℚ) : ℤ :=
  jsRound (600 * (T : ℝ) * (if D > 7 then 1.2 else 1.0) * (M : ℝ))

/-- Spec table: `round(85 × D × sqrt(T) × M)`. -/
noncomputable def specAccommodation (D T : ℕ) (M : ℚ) : ℤ :=
  jsRound (85 * (D : ℝ) * Real.sqrt (T : ℝ) * (M : ℝ))

/-- Spec table: `round(45 × D × T × M)`. -/
noncomputable def specFood (D T : ℕ) (M : ℚ) : ℤ :=
  jsRound (45 * (D : ℝ) * (T : ℝ) * (M : ℝ))

/-- Spec table: `round(35 × D × T × M)`. -/
noncomputable def specActivities (D T : ℕ) (M : ℚ) : ℤ :=
  jsRound (35 * (D : ℝ) * (T : ℝ) * (M : ℝ))

/-- Spec table: `round(25 × D × sqrt(T) × M)`. -/
noncomputable def specTransportation (D T : ℕ) (M : ℚ) : ℤ :=
  jsRound (25 * (D : ℝ) * Real.sqrt (T : ℝ) * (M : ℝ))

/-- Spec table: `round(20 × D × T × M)`. -/
noncomputable def specMiscellaneous (D T : ℕ) (M : ℚ) : ℤ :=
  jsRound (20 * (D : ℝ) * (T : ℝ) * (M : ℝ))

/-! ## `TravelBudgetAnalyst.tsx`: the cost section of `analyzeTripBudget`

The second budget component, `src/components/TravelBudgetAnalyst.tsx`, is the
one whose estimator accepts the optional itinerary and flight selection
(`analyzeTripBudget`, lines 190–367). Its six cost computations
(lines 201–277) and their estimator fallbacks (lines 370–431) are embedded
below; everything here is rational-valued. -/

namespace TravelBudget

/-- An activity of an itinerary day: the cost and the category the filters
inspect (`'sightseeing' | 'food' | 'activity' | 'transport' | 'shopping'`).
Time, title, description and location are display-only. -/
structure Activity where
  estimatedCost : ℚ
  category : String
deriving DecidableEq

/-- A meal of an itinerary day; its type and name are display-only. -/
structure Meal where
  cost : ℚ
deriving DecidableEq

/-- The accommodation of an itinerary day; name and type are display-only. -/
structure Accommodation where
  pricePerNight : ℚ
deriving DecidableEq

/-- One day of the optional itinerary (`ItineraryItem`); `day`, `date` and
`theme` are display-only. -/
structure ItineraryItem where
  activities : List Activity
  accommodation : Option Accommodation
  meals : List Meal
deriving DecidableEq

/-- One selected flight: `price.amount` (the `currency` field is never read
by the cost computation). -/
structure FlightLeg where
  priceAmount : ℚ
deriving DecidableEq

/-- The optional flight selection; `ret` embeds the source field `return`
(a Lean keyword). -/
structure FlightSelection where
  outbound : FlightLeg
  ret : Option FlightLeg
deriving DecidableEq

/-- `table[key] || dflt`: association-list lookup with a default. (JS `||`
would also replace a stored `0` by the default, but none of the source's
rate tables contains a zero.) -/
def lookupRate (table : List (String × ℚ)) (key : String) (dflt : ℚ) : ℚ :=
  match table.find? fun p => p.1 == key with
  | some p => p.2
  | none => dflt

/-- Lines 370–379: `estimateFlightCost`. -/
def estimateFlightCost (destination : String) (travelers days : ℕ) : ℚ :=
  let baseRates : List (String × ℚ) :=
    [("New York", 400), ("London", 600), ("Paris", 650), ("Tokyo", 800),
     ("Los Angeles", 350), ("Chicago", 300), ("Dubai", 700), ("Singapore", 750),
     ("Frankfurt", 550), ("Amsterdam", 500)]
  let baseCost := lookupRate baseRates destination 500
  let multiplier : ℚ := if days > 7 then 1.2 else if days < 3 then 0.8 else 1.0
  (jsRoundQ (baseCost * multiplier * travelers) : ℚ)

/-- Lines 381–390: `estimateAccommodationCost`; `Math.ceil(travelers / 2)`
rooms. -/
def estimateAccommodationCost (destination : String) (days travelers : ℕ) : ℚ :=
  let nightlyRates : List (String × ℚ) :=
    [("New York", 200), ("London", 150), ("Paris", 180), ("Tokyo", 120),
     ("Los Angeles", 160), ("Chicago", 140), ("Dubai", 250), ("Singapore", 130),
     ("Frankfurt", 110), ("Amsterdam", 120)]
  let baseRate := lookupRate nightlyRates destination 150
  let roomsNeeded : ℤ := ⌈(travelers : ℚ) / 2⌉
  (jsRoundQ (baseRate * days * roomsNeeded) : ℚ)

/-- Lines 392–400: `estimateFoodCost`. -/
def estimateFoodCost (destination : String) (days travelers : ℕ) : ℚ :=
  let dailyFoodRates : List (String × ℚ) :=
    [("New York", 80), ("London", 70), ("Paris", 75), ("Tokyo", 60),
     ("Los Angeles", 70), ("Chicago", 60), ("Dubai", 90), ("Singapore", 50),
     ("Frankfurt", 65), ("Amsterdam", 65)]
  let dailyRate := lookupRate dailyFoodRates destination 70
  (jsRoundQ (dailyRate * days * travelers) : ℚ)

/-- Lines 402–411: `estimateActivityCost`; the multiplier depends on how many
interests were given. -/
def estimateActivityCost (destination : String) (interests : List String)
    (days travelers : ℕ) : ℚ :=
  let baseDailyActivity : List (String × ℚ) :=
    [("New York", 60), ("London", 50), ("Paris", 55), ("Tokyo", 45),
     ("Los Angeles", 50), ("Chicago", 40), ("Dubai", 70), ("Singapore", 40),
     ("Frankfurt", 35), ("Amsterdam", 40)]
  let baseRate := lookupRate baseDailyActivity destination 50
  let interestMultiplier : ℚ :=
    if interests.length > 3 then 1.3 else if interests.length < 2 then 0.7 else 1.0
  (jsRoundQ (baseRate * days * travelers * interestMultiplier) : ℚ)

/-- Lines 413–421: `estimateTransportationCost`. -/
def estimateTransportationCost (destination : String) (days travelers : ℕ) : ℚ :=
  let dailyTransportRates : List (String × ℚ) :=
    [("New York", 25), ("London", 20), ("Paris", 18), ("Tokyo", 15),
     ("Los Angeles", 30), ("Chicago", 20), ("Dubai", 35), ("Singapore", 12),
     ("Frankfurt", 15), ("Amsterdam", 12)]
  let dailyRate := lookupRate dailyTransportRates destination 20
  (jsRoundQ (dailyRate * days * travelers) : ℚ)

/-- Lines 423–431: `estimateMiscellaneousCost` — 15% of the other categories'
estimates, rounded. -/
def estimateMiscellaneousCost (destination : String) (days travelers : ℕ) : ℚ :=
  (jsRoundQ ((estimateFlightCost destination travelers days +
      estimateAccommodationCost destination days travelers +
      estimateFoodCost destination days travelers +
      estimateActivityCost destination [] days travelers +
      estimateTransportationCost destination days travelers) * 0.15) : ℚ)

/-- Lines 201–212: the flight cost — the selected fares summed and multiplied
by the traveler count when a selection is present, the estimator otherwise. -/
def flightCost (flights : Option FlightSelection) (destination : String)
    (travelers days : ℕ) : ℚ :=
  match flights with
  | some f =>
      (f.outbound.priceAmount +
        (match f.ret with | some r => r.priceAmount | none => 0)) * travelers
  | none => estimateFlightCost destination travelers days

/-- Lines 214–224: the accommodation cost — the sum of
`day.accommodation?.pricePerNight || 0` when the itinerary is non-empty and
its first day carries an accommodation, the estimator otherwise. -/
def accommodationCost (itinerary : List ItineraryItem) (destination : String)
    (days travelers : ℕ) : ℚ :=
  match itinerary with
  | day0 :: _ =>
      if day0.accommodation.isSome then
        (itinerary.map fun day => ((day.accommodation.map Accommodation.pricePerNight).getD 0)).sum
      else estimateAccommodationCost destination days travelers
  | [] => estimateAccommodationCost destination days travelers

/-- Lines 226–235: the food cost — per-day meal sums, times the traveler
count, when the itinerary is non-empty. -/
def foodCost (itinerary : List ItineraryItem) (destination : String)
    (days travelers : ℕ) : ℚ :=
  match itinerary with
  | [] => estimateFoodCost destination days travelers
  | _ :: _ =>
      (itinerary.map fun day => (day.meals.map Meal.cost).sum).sum * travelers

/-- Lines 237–248: the activity cost — per-day sums over entries of category
`'activity'` or `'sightseeing'`, times the traveler count, when the itinerary
is non-empty. -/
def activityCost (itinerary : List ItineraryItem) (destination : String)
    (interests : List String) (days travelers : ℕ) : ℚ :=
  match itinerary with
  | [] => estimateActivityCost destination interests days travelers
  | _ :: _ =>
      (itinerary.map fun day =>
        ((day.activities.filter fun a =>
            a.category == "activity" || a.category == "sightseeing").map
          Activity.estimatedCost).sum).sum * travelers

/-- Lines 250–261: the transportation cost — per-day sums over entries of
category `'transport'`, times the traveler count, when the itinerary is
non-empty. -/
def transportCost (itinerary : List ItineraryItem) (destination : String)
    (days travelers : ℕ) : ℚ :=
  match itinerary with
  | [] => estimateTransportationCost destination days travelers
  | _ :: _ =>
      (itinerary.map fun day =>
        ((day.activities.filter fun a => a.category == "transport").map
          Activity.estimatedCost).sum).sum * travelers

/-- Lines 263–277: the miscellaneous cost — per-day sums over entries of
category `'shopping'`, times the traveler count, **plus a 10% buffer over the
five other categories**, when the itinerary is non-empty; the estimator
otherwise. -/
def miscCost (flights : Option FlightSelection) (itinerary : List ItineraryItem)
    (destination : String) (interests : List String) (days travelers : ℕ) : ℚ :=
  match itinerary with
  | [] => estimateMiscellaneousCost destination days travelers
  | _ :: _ =>
      (itinerary.map fun day =>
        ((day.activities.filter fun a => a.category == "shopping").map
          Activity.estimatedCost).sum).sum * travelers +
      (flightCost flights destination travelers days +
        accommodationCost itinerary destination days travelers +
        foodCost itinerary destination days travelers +
        activityCost itinerary destination interests days travelers +
        transportCost itinerary destination days travelers) * 0.1

end TravelBudget

/-! ## Helper lemmas -/

theorem jsRound_le_jsRound {x y : ℝ} (h : x ≤ y) : jsRound x ≤ jsRound y :=
  Int.floor_le_floor (by linarith)

theorem jsRound_nonneg {x : ℝ} (h : 0 ≤ x) : 0 ≤ jsRound x :=
  Int.le_floor.mpr (by push_cast; linarith)

theorem multiplier_pos (d : String) : 0 < getDestinationMultiplier d := by
  unfold getDestinationMultiplier
  split_ifs <;> norm_num

theorem peakFactor_nonneg (D : ℕ) : (0 : ℝ) ≤ if D > 7 then 1.2 else 1.0 := by
  split_ifs <;> norm_num

theorem peakFactor_le {D D' : ℕ} (h : D ≤ D') :
    (if D > 7 then (1.2 : ℝ) else 1.0) ≤ if D' > 7 then 1.2 else 1.0 := by
  split_ifs with h1 h2 <;> try norm_num
  exact absurd (lt_of_lt_of_le h1 h) (by assumption)

/-- The status classification of lines 250–252, characterised by the ±5%
band around a positive original budget. -/
theorem budgetStatusOf_iff (v B : ℤ) (hB : 0 < B) :
    (budgetStatusOf v B = .under ↔ (v : ℚ) < -0.05 * B) ∧
    (budgetStatusOf v B = .over ↔ 0.05 * (B : ℚ) < v) ∧
    (budgetStatusOf v B = .onTrack ↔ -0.05 * (B : ℚ) ≤ v ∧ (v : ℚ) ≤ 0.05 * B) := by
  have hBq : (0 : ℚ) < (B : ℚ) := by exact_mod_cast hB
  unfold budgetStatusOf
  split_ifs with h1 h2
  · refine ⟨⟨fun _ => by linarith, fun _ => rfl⟩,
      ⟨fun hco => absurd hco (by decide), fun hgt => False.elim (by linarith)⟩,
      ⟨fun hco => absurd hco (by decide), fun hin => False.elim (by
        obtain ⟨hge, _⟩ := hin
        linarith)⟩⟩
  · refine ⟨⟨fun hco => absurd hco (by decide), fun hlt => False.elim (by linarith)⟩,
      ⟨fun _ => by linarith, fun _ => rfl⟩,
      ⟨fun hco => absurd hco (by decide), fun hin => False.elim (by
        obtain ⟨_, hle⟩ := hin
        linarith)⟩⟩
  · refine ⟨⟨fun hco => absurd hco (by decide), fun hlt => False.elim (by linarith)⟩,
      ⟨fun hco => absurd hco (by decide), fun hgt => False.elim (by linarith)⟩,
      ⟨fun _ => ⟨by linarith, by linarith⟩, fun _ => rfl⟩⟩

/-! ## The claims -/

/-- C1: for every trip input with `totalDays D ≥ 1`, `travelers T ≥ 1` and
destination multiplier `M`, the six category amounts computed by
`generateBudgetAnalysis` equal the spec table's formulas exactly:
flights `round(600·T·(1.2 if D>7 else 1.0)·M)`,
accommodation `round(85·D·√T·M)`, food `round(45·D·T·M)`,
activities `round(35·D·T·M)`, transportation `round(25·D·√T·M)`,
miscellaneous `round(20·D·T·M)`. -/
theorem breakdown_matches_spec_table (destination : String) (D T : ℕ) (B : ℤ)
    (hD : 1 ≤ D) (hT : 1 ≤ T) :
    (generateBudgetAnalysis destination D T B).breakdown.flights
        = specFlights D T (getDestinationMultiplier destination) ∧
    (generateBudgetAnalysis destination D T B).breakdown.accommodation
        = specAccommodation D T (getDestinationMultiplier destination) ∧
    (generateBudgetAnalysis destination D T B).breakdown.food
        = specFood D T (getDestinationMultiplier destination) ∧
    (generateBudgetAnalysis destination D T B).breakdown.activities
        = specActivities D T (getDestinationMultiplier destination) ∧
    (generateBudgetAnalysis destination D T B).breakdown.transportation
        = specTransportation D T (getDestinationMultiplier destination) ∧
    (generateBudgetAnalysis destination D T B).breakdown.miscellaneous
        = specMiscellaneous D T (getDestinationMultiplier destination) :=
  ⟨rfl, rfl, rfl, rfl, rfl, rfl⟩

/-- Witness for C1 at `destination = "Thailand"`, `D = 5`, `T = 2`,
`B = 1000`. -/
theorem breakdown_matches_spec_table_witness :
    (generateBudgetAnalysis "Thailand" 5 2 1000).breakdown.flights
        = specFlights 5 2 (getDestinationMultiplier "Thailand") ∧
    (generateBudgetAnalysis "Thailand" 5 2 1000).breakdown.accommodation
        = specAccommodation 5 2 (getDestinationMultiplier "Thailand") ∧
    (generateBudgetAnalysis "Thailand" 5 2 1000).breakdown.food
        = specFood 5 2 (getDestinationMultiplier "Thailand") ∧
    (generateBudgetAnalysis "Thailand" 5 2 1000).breakdown.activities
        = specActivities 5 2 (getDestinationMultiplier "Thailand") ∧
    (generateBudgetAnalysis "Thailand" 5 2 1000).breakdown.transportation
        = specTransportation 5 2 (getDestinationMultiplier "Thailand") ∧
    (generateBudgetAnalysis "Thailand" 5 2 1000).breakdown.miscellaneous
        = specMiscellaneous 5 2 (getDestinationMultiplier "Thailand") :=
  breakdown_matches_spec_table "Thailand" 5 2 1000 (by norm_num) (by norm_num)

/-- C2: for every trip input with `originalBudget B > 0` and
`variance = totalEstimated − B`, the status is `under` exactly when
`variance < −0.05·B`, `over` exactly when `variance > 0.05·B`, and
`on-track` otherwise, both boundaries included. -/
theorem budgetStatus_five_percent_band (destination : String) (D T : ℕ) (B : ℤ)
    (hB : 0 < B) :
    ((generateBudgetAnalysis destination D T B).budgetStatus = .under ↔
        ((generateBudgetAnalysis destination D T B).variance : ℚ) < -0.05 * B) ∧
    ((generateBudgetAnalysis destination D T B).budgetStatus = .over ↔
        0.05 * (B : ℚ) < (generateBudgetAnalysis destination D T B).variance) ∧
    ((generateBudgetAnalysis destination D T B).budgetStatus = .onTrack ↔
        -0.05 * (B : ℚ) ≤ (generateBudgetAnalysis destination D T B).variance ∧
        ((generateBudgetAnalysis destination D T B).variance : ℚ) ≤ 0.05 * B) :=
  budgetStatusOf_iff ((generateBudgetAnalysis destination D T B).variance) B hB

/-- Witness for C2 at `destination = "Generic Place"`, `D = 5`, `T = 2`,
`B = 1000`. -/
theorem budgetStatus_five_percent_band_witness :
    ((generateBudgetAnalysis "Generic Place" 5 2 1000).budgetStatus = .under ↔
        ((generateBudgetAnalysis "Generic Place" 5 2 1000).variance : ℚ) < -0.05 * 1000) ∧
    ((generateBudgetAnalysis "Generic Place" 5 2 1000).budgetStatus = .over ↔
        0.05 * ((1000 : ℤ) : ℚ) < (generateBudgetAnalysis "Generic Place" 5 2 1000).variance) ∧
    ((generateBudgetAnalysis "Generic Place" 5 2 1000).budgetStatus = .onTrack ↔
        -0.05 * ((1000 : ℤ) : ℚ) ≤ (generateBudgetAnalysis "Generic Place" 5 2 1000).variance ∧
        ((generateBudgetAnalysis "Generic Place" 5 2 1000).variance : ℚ) ≤ 0.05 * 1000) :=
  budgetStatus_five_percent_band "Generic Place" 5 2 1000 (by norm_num)

/-- C3: for every trip input with `D ≥ 1` and `T ≥ 1`, each of the six
category amounts is a non-negative integer, and `totalEstimated` is exactly
the sum of the six individually rounded amounts (round-then-sum; the total is
never independently rounded). -/
theorem amounts_nonneg_total_is_sum (destination : String) (D T : ℕ) (B : ℤ)
    (hD : 1 ≤ D) (hT : 1 ≤ T) :
    (0 ≤ (generateBudgetAnalysis destination D T B).breakdown.flights ∧
     0 ≤ (generateBudgetAnalysis destination D T B).breakdown.accommodation ∧
     0 ≤ (generateBudgetAnalysis destination D T B).breakdown.food ∧
     0 ≤ (generateBudgetAnalysis destination D T B).breakdown.activities ∧
     0 ≤ (generateBudgetAnalysis destination D T B).breakdown.transportation ∧
     0 ≤ (generateBudgetAnalysis destination D T B).breakdown.miscellaneous) ∧
    (generateBudgetAnalysis destination D T B).totalEstimated =
      (generateBudgetAnalysis destination D T B).breakdown.flights +
      (generateBudgetAnalysis destination D T B).breakdown.accommodation +
      (generateBudgetAnalysis destination D T B).breakdown.food +
      (generateBudgetAnalysis destination D T B).breakdown.activities +
      (generateBudgetAnalysis destination D T B).breakdown.transportation +
      (generateBudgetAnalysis destination D T B).breakdown.miscellaneous := by
  have hM : (0 : ℝ) ≤ ((getDestinationMultiplier destination : ℚ) : ℝ) := by
    exact_mod_cast (multiplier_pos destination).le
  refine ⟨⟨?_, ?_, ?_, ?_, ?_, ?_⟩, rfl⟩
  · exact jsRound_nonneg (mul_nonneg (mul_nonneg (by positivity) (peakFactor_nonneg D)) hM)
  · exact jsRound_nonneg (mul_nonneg (by positivity) hM)
  · exact jsRound_nonneg (mul_nonneg (by positivity) hM)
  · exact jsRound_nonneg (mul_nonneg (by positivity) hM)
  · exact jsRound_nonneg (mul_nonneg (by positivity) hM)
  · exact jsRound_nonneg (mul_nonneg (by positivity) hM)

/-- Witness for C3 at `destination = "Japan"`, `D = 10`, `T = 3`,
`B = 5000`. -/
theorem amounts_nonneg_total_is_sum_witness :
    (0 ≤ (generateBudgetAnalysis "Japan" 10 3 5000).breakdown.flights ∧
     0 ≤ (generateBudgetAnalysis "Japan" 10 3 5000).breakdown.accommodation ∧
     0 ≤ (generateBudgetAnalysis "Japan" 10 3 5000).breakdown.food ∧
     0 ≤ (generateBudgetAnalysis "Japan" 10 3 5000).breakdown.activities ∧
     0 ≤ (generateBudgetAnalysis "Japan" 10 3 5000).breakdown.transportation ∧
     0 ≤ (generateBudgetAnalysis "Japan" 10 3 5000).breakdown.miscellaneous) ∧
    (generateBudgetAnalysis "Japan" 10 3 5000).totalEstimated =
      (generateBudgetAnalysis "Japan" 10 3 5000).breakdown.flights +
      (generateBudgetAnalysis "Japan" 10 3 5000).breakdown.accommodation +
      (generateBudgetAnalysis "Japan" 10 3 5000).breakdown.food +
      (generateBudgetAnalysis "Japan" 10 3 5000).breakdown.activities +
      (generateBudgetAnalysis "Japan" 10 3 5000).breakdown.transportation +
      (generateBudgetAnalysis "Japan" 10 3 5000).breakdown.miscellaneous :=
  amounts_nonneg_total_is_sum "Japan" 10 3 5000 (by norm_num) (by norm_num)

/-- C4: `getDestinationMultiplier` always yields a value of
`{1.5, 1.3, 0.9, 0.6, 1.0}`, selected by case-insensitive substring match
against the four fixed tier lists in the order very-high, high, medium, low,
first match winning; a destination matching no tier (such as
`"Generic Place"`) yields exactly `1.0`. -/
theorem destinationMultiplier_tier_selection :
    (∀ d, getDestinationMultiplier d ∈ ([1.5, 1.3, 0.9, 0.6, 1.0] : List ℚ)) ∧
    (∀ d, matchesTier d veryHighCost = true → getDestinationMultiplier d = 1.5) ∧
    (∀ d, matchesTier d veryHighCost = false → matchesTier d highCost = true →
        getDestinationMultiplier d = 1.3) ∧
    (∀ d, matchesTier d veryHighCost = false → matchesTier d highCost = false →
        matchesTier d mediumCost = true → getDestinationMultiplier d = 0.9) ∧
    (∀ d, matchesTier d veryHighCost = false → matchesTier d highCost = false →
        matchesTier d mediumCost = false → matchesTier d lowCost = true →
        getDestinationMultiplier d = 0.6) ∧
    (∀ d, matchesTier d veryHighCost = false → matchesTier d highCost = false →
        matchesTier d mediumCost = false → matchesTier d lowCost = false →
        getDestinationMultiplier d = 1.0) ∧
    getDestinationMultiplier "Generic Place" = 1.0 := by
  refine ⟨?_, ?_, ?_, ?_, ?_, ?_, by with_unfolding_all rfl⟩
  · intro d
    unfold getDestinationMultiplier
    split_ifs <;> simp
  · intro d h
    simp [getDestinationMultiplier, h]
  · intro d h1 h2
    simp [getDestinationMultiplier, h1, h2]
  · intro d h1 h2 h3
    simp [getDestinationMultiplier, h1, h2, h3]
  · intro d h1 h2 h3 h4
    simp [getDestinationMultiplier, h1, h2, h3, h4]
  · intro d h1 h2 h3 h4
    simp [getDestinationMultiplier, h1, h2, h3, h4]

/-- Monotonicity of the six-category total in the traveler count, for a
non-negative multiplier. -/
theorem breakdown_total_mono_travelers {D T T' : ℕ} {M : ℚ} (hM : 0 ≤ M)
    (h : T ≤ T') : (breakdownOf D T M).total ≤ (breakdownOf D T' M).total := by
  have hm : (0 : ℝ) ≤ (M : ℝ) := by exact_mod_cast hM
  have hT : ((T : ℕ) : ℝ) ≤ ((T' : ℕ) : ℝ) := by exact_mod_cast h
  have hsq : Real.sqrt (T : ℝ) ≤ Real.sqrt (T' : ℝ) := Real.sqrt_le_sqrt hT
  unfold breakdownOf BudgetBreakdown.total
  dsimp only
  refine add_le_add (add_le_add (add_le_add (add_le_add (add_le_add ?_ ?_) ?_) ?_) ?_) ?_
  · exact jsRound_le_jsRound (mul_le_mul_of_nonneg_right
      (mul_le_mul_of_nonneg_right (mul_le_mul_of_nonneg_left hT (by norm_num))
        (peakFactor_nonneg D)) hm)
  · exact jsRound_le_jsRound (mul_le_mul_of_nonneg_right
      (mul_le_mul_of_nonneg_left hsq (by positivity)) hm)
  · exact jsRound_le_jsRound (mul_le_mul_of_nonneg_right
      (mul_le_mul_of_nonneg_left hT (by positivity)) hm)
  · exact jsRound_le_jsRound (mul_le_mul_of_nonneg_right
      (mul_le_mul_of_nonneg_left hT (by positivity)) hm)
  · exact jsRound_le_jsRound (mul_le_mul_of_nonneg_right
      (mul_le_mul_of_nonneg_left hsq (by positivity)) hm)
  · exact jsRound_le_jsRound (mul_le_mul_of_nonneg_right
      (mul_le_mul_of_nonneg_left hT (by positivity)) hm)

/-- Monotonicity of the six-category total in the trip length, for a
non-negative multiplier. -/
theorem breakdown_total_mono_days {D D' T : ℕ} {M : ℚ} (hM : 0 ≤ M)
    (h : D ≤ D') : (breakdownOf D T M).total ≤ (breakdownOf D' T M).total := by
  have hm : (0 : ℝ) ≤ (M : ℝ) := by exact_mod_cast hM
  have hD : ((D : ℕ) : ℝ) ≤ ((D' : ℕ) : ℝ) := by exact_mod_cast h
  unfold breakdownOf BudgetBreakdown.total
  dsimp only
  refine add_le_add (add_le_add (add_le_add (add_le_add (add_le_add ?_ ?_) ?_) ?_) ?_) ?_
  · exact jsRound_le_jsRound (mul_le_mul_of_nonneg_right
      (mul_le_mul_of_nonneg_left (peakFactor_le h) (by positivity)) hm)
  · exact jsRound_le_jsRound (mul_le_mul_of_nonneg_right
      (mul_le_mul_of_nonneg_right (mul_le_mul_of_nonneg_left hD (by norm_num))
        (Real.sqrt_nonneg _)) hm)
  · exact jsRound_le_jsRound (mul_le_mul_of_nonneg_right
      (mul_le_mul_of_nonneg_right (mul_le_mul_of_nonneg_left hD (by norm_num))
        (Nat.cast_nonneg T)) hm)
  · exact jsRound_le_jsRound (mul_le_mul_of_nonneg_right
      (mul_le_mul_of_nonneg_right (mul_le_mul_of_nonneg_left hD (by norm_num))
        (Nat.cast_nonneg T)) hm)
  · exact jsRound_le_jsRound (mul_le_mul_of_nonneg_right
      (mul_le_mul_of_nonneg_right (mul_le_mul_of_nonneg_left hD (by norm_num))
        (Real.sqrt_nonneg _)) hm)
  · exact jsRound_le_jsRound (mul_le_mul_of_nonneg_right
      (mul_le_mul_of_nonneg_right (mul_le_mul_of_nonneg_left hD (by norm_num))
        (Nat.cast_nonneg T)) hm)

/-- C7: for `D ≥ 1`, `T ≥ 1`, `totalEstimated` is monotone non-decreasing in
each of `T` and `D` separately: any `T' > T` (holding the rest fixed) never
decreases it, and any `D' > D` never decreases it. -/
theorem totalEstimated_monotone (destination : String) (D D' T T' : ℕ) (B : ℤ)
    (hD : 1 ≤ D) (hT : 1 ≤ T) (hT' : T < T') (hD' : D < D') :
    (generateBudgetAnalysis destination D T B).totalEstimated ≤
        (generateBudgetAnalysis destination D T' B).totalEstimated ∧
    (generateBudgetAnalysis destination D T B).totalEstimated ≤
        (generateBudgetAnalysis destination D' T B).totalEstimated :=
  ⟨breakdown_total_mono_travelers (multiplier_pos destination).le hT'.le,
   breakdown_total_mono_days (multiplier_pos destination).le hD'.le⟩

/-- Witness for C7 at `destination = "Iceland"`, `D = 5 < D' = 9`,
`T = 2 < T' = 3`, `B = 4000`. -/
theorem totalEstimated_monotone_witness :
    (generateBudgetAnalysis "Iceland" 5 2 4000).totalEstimated ≤
        (generateBudgetAnalysis "Iceland" 5 3 4000).totalEstimated ∧
    (generateBudgetAnalysis "Iceland" 5 2 4000).totalEstimated ≤
        (generateBudgetAnalysis "Iceland" 9 2 4000).totalEstimated :=
  totalEstimated_monotone "Iceland" 5 9 2 3 4000 (by norm_num) (by norm_num)
    (by norm_num) (by norm_num)

/-- C8: the risk-factor list contains the high-cost entry iff the multiplier
exceeds 1.2 and the extended-duration entry iff `totalDays > 14`, those
conditional entries (in that order) preceding the two unconditional trailing
entries (currency, then seasonal); and the recommendations are the
status-specific tips followed by the two universal trailing tips. -/
theorem riskFactors_recommendations_structure (destination : String)
    (D T : ℕ) (B : ℤ) :
    (highCostRisk ∈ (generateBudgetAnalysis destination D T B).riskFactors ↔
        1.2 < getDestinationMultiplier destination) ∧
    (extendedTripRisk ∈ (generateBudgetAnalysis destination D T B).riskFactors ↔
        14 < D) ∧
    (∃ pre, pre.Sublist [highCostRisk, extendedTripRisk] ∧
        (generateBudgetAnalysis destination D T B).riskFactors =
          pre ++ [currencyRisk, seasonalRisk]) ∧
    (generateBudgetAnalysis destination D T B).recommendations =
      statusRecommendations (generateBudgetAnalysis destination D T B).budgetStatus ++
        ["Book accommodation and major activities in advance for better rates",
         "Consider travel insurance to protect your investment"] := by
  have hproj : (generateBudgetAnalysis destination D T B).riskFactors =
      generateRiskFactors D (getDestinationMultiplier destination) := rfl
  rw [hproj]
  refine ⟨?_, ?_, ?_, rfl⟩
  · unfold generateRiskFactors
    split_ifs with h1 h2 h3 <;>
      simp_all [highCostRisk, extendedTripRisk, currencyRisk, seasonalRisk]
  · unfold generateRiskFactors
    split_ifs with h1 h2 h3 <;>
      simp_all [highCostRisk, extendedTripRisk, currencyRisk, seasonalRisk]
  · unfold generateRiskFactors
    split_ifs with h1 h2 h3
    · exact ⟨[highCostRisk, extendedTripRisk], List.Sublist.refl _, rfl⟩
    · exact ⟨[highCostRisk], by decide, rfl⟩
    · exact ⟨[extendedTripRisk], by decide, rfl⟩
    · exact ⟨[], List.nil_sublist _, rfl⟩

/-- C9: `costSavingTips` has exactly one entry for each of flights,
accommodation, food and transportation, whose `potentialSavings` is
`round(amount · rate)` with the fixed rates 15%, 25%, 30% and 20%. -/
theorem costSavingTips_categories_rates (destination : String) (D T : ℕ) (B : ℤ) :
    (generateBudgetAnalysis destination D T B).costSavingTips.map SavingTip.category =
      ["Flights", "Accommodation", "Food", "Transportation"] ∧
    (generateBudgetAnalysis destination D T B).costSavingTips.map SavingTip.potentialSavings =
      [jsRoundQ (((generateBudgetAnalysis destination D T B).breakdown.flights : ℚ) * (15 / 100)),
       jsRoundQ (((generateBudgetAnalysis destination D T B).breakdown.accommodation : ℚ) * (25 / 100)),
       jsRoundQ (((generateBudgetAnalysis destination D T B).breakdown.food : ℚ) * (30 / 100)),
       jsRoundQ (((generateBudgetAnalysis destination D T B).breakdown.transportation : ℚ) * (20 / 100))] := by
  constructor
  · rfl
  · have h15 : (0.15 : ℚ) = 15 / 100 := by norm_num
    have h25 : (0.25 : ℚ) = 25 / 100 := by norm_num
    have h30 : (0.30 : ℚ) = 30 / 100 := by norm_num
    have h20 : (0.20 : ℚ) = 20 / 100 := by norm_num
    show (generateCostSavingTips (generateBudgetAnalysis destination D T B).breakdown).map
        SavingTip.potentialSavings = _
    unfold generateCostSavingTips
    rw [List.map_cons, List.map_cons, List.map_cons, List.map_cons, List.map_nil,
      show ((generateBudgetAnalysis destination D T B).breakdown) =
        breakdownOf D T (getDestinationMultiplier destination) from rfl]
    dsimp only
    rw [h15, h25, h30, h20]

/-- C6: with `originalBudget = 0` the variance percentage of line 248 is a
degenerate (non-finite: `Infinity`/`-Infinity`/`NaN`) value — the division is
not guarded. -/
theorem variancePercentage_unguarded_zero_budget (destination : String) (D T : ℕ) :
    ((generateBudgetAnalysis destination D T 0).variancePercentage).isFinite = false := by
  simp only [generateBudgetAnalysis, Int.cast_zero]
  unfold jsDiv
  rw [if_neg (by norm_num : ¬((0 : ℚ) ≠ 0))]
  split_ifs <;> norm_num [jsMulConst, JsNum.isFinite]

/-- A concrete one-day itinerary (one 5-unit shopping activity, one 10-unit
meal, a 20-unit accommodation) used to exercise the override path of
`analyzeTripBudget`. -/
def exDay : TravelBudget.ItineraryItem where
  activities := [{ estimatedCost := 5, category := "shopping" }]
  accommodation := some { pricePerNight := 20 }
  meals := [{ cost := 10 }]

/-- A concrete flight selection (outbound fare 100, no return leg). -/
def exFlights : TravelBudget.FlightSelection where
  outbound := { priceAmount := 100 }
  ret := none

/-- C5 is false as stated: at the concrete input (`exFlights`, itinerary
`[exDay]`, 1 day, 2 travelers) the shopping-based miscellaneous sub-total is
34 — the shopping sum times the traveler count (10) **plus** a 10% buffer
over the other five categories (24) — not the claimed 10. -/
theorem miscCost_shopping_counterexample :
    TravelBudget.miscCost (some exFlights) [exDay] "London" [] 1 2 = 34 ∧
    (([exDay] : List TravelBudget.ItineraryItem).map fun day =>
        ((day.activities.filter fun a => a.category == "shopping").map
          TravelBudget.Activity.estimatedCost).sum).sum * (2 : ℚ) = 10 ∧
    (34 : ℚ) ≠ 10 := by
  refine ⟨by with_unfolding_all rfl, by with_unfolding_all rfl, by norm_num⟩

/-- C5 (amended): when a non-empty itinerary is supplied, the food, activity
and transportation sub-totals of `analyzeTripBudget` are the sums of the
corresponding per-day itinerary entries times the traveler count; the
shopping-based miscellaneous sub-total is the per-day shopping sum times the
traveler count **plus a 10% buffer over the five other category costs**. -/
theorem itinerary_override_subtotals (flights : Option TravelBudget.FlightSelection)
    (day0 : TravelBudget.ItineraryItem) (rest : List TravelBudget.ItineraryItem)
    (destination : String) (interests : List String) (days travelers : ℕ) :
    TravelBudget.foodCost (day0 :: rest) destination days travelers =
      ((day0 :: rest).map fun day => (day.meals.map TravelBudget.Meal.cost).sum).sum
        * travelers ∧
    TravelBudget.activityCost (day0 :: rest) destination interests days travelers =
      ((day0 :: rest).map fun day =>
        ((day.activities.filter fun a =>
            a.category == "activity" || a.category == "sightseeing").map
          TravelBudget.Activity.estimatedCost).sum).sum * travelers ∧
    TravelBudget.transportCost (day0 :: rest) destination days travelers =
      ((day0 :: rest).map fun day =>
        ((day.activities.filter fun a => a.category == "transport").map
          TravelBudget.Activity.estimatedCost).sum).sum * travelers ∧
    TravelBudget.miscCost flights (day0 :: rest) destination interests days travelers =
      ((day0 :: rest).map fun day =>
        ((day.activities.filter fun a => a.category == "shopping").map
          TravelBudget.Activity.estimatedCost).sum).sum * travelers +
      (TravelBudget.flightCost flights destination travelers days +
        TravelBudget.accommodationCost (day0 :: rest) destination days travelers +
        TravelBudget.foodCost (day0 :: rest) destination days travelers +
        TravelBudget.activityCost (day0 :: rest) destination interests days travelers +
        TravelBudget.transportCost (day0 :: rest) destination days travelers) * (1 / 10) := by
  refine ⟨rfl, rfl, rfl, ?_⟩
  rw [show (1 / 10 : ℚ) = 0.1 from by norm_num]
  rfl

/-- C10: the `originalBudget` fed to the variance-percentage division is
never 0 — a budget string parsing to 0 or failing to parse (for example
`"0"`, `"abc"`, the empty string) becomes the default 2000, and travellers
likewise defaults to 1 — so the divisor is nonzero for every budget string. -/
theorem originalBudget_never_zero :
    (∀ s, originalBudgetOf s ≠ 0) ∧
    originalBudgetOf "0" = 2000 ∧
    originalBudgetOf "abc" = 2000 ∧
    originalBudgetOf "" = 2000 ∧
    travelersOf "0" = 1 ∧
    travelersOf "abc" = 1 ∧
    travelersOf "" = 1 := by
  refine ⟨?_, by decide, by decide, by decide, by decide, by decide, by decide⟩
  intro s
  unfold originalBudgetOf
  cases hp : jsParseInt s with
  | none => norm_num
  | some n =>
    dsimp only
    split_ifs with h
    · norm_num
    · exact h

end TravelPlanner
